import Mathlib

/-!
# Student CRUD handlers (handlers.go, constant.go, main.go)

A shallow embedding of the four HTTP handlers of the repository and of the three
library calls they are built from:

* `json.NewDecoder(r.Body).Decode(&student)`  is `decodeStudent`,
* `validate.Struct(student)`                  is `Validate.Struct`,
* the calls on `*mongo.Collection`            are `InsertOne`, `FindOne`, `UpdateOne`, `DeleteOne`.

A handler is a function from the package-level validator, what the driver contributes to
the call, the collection contents and the request, to the response written, the store calls
made and the collection contents afterwards. The handler of the running program is the
function at `validate`, the value main.go leaves in the package-level variable.
-/

namespace CrudInUberStyle

/-! ## constant.go -/

def INVALID_REQUEST_BODY : String := "Invalid request body"
def FAILED_TO_INSERT_STUDENT : String := "Failed to insert student"
def FAILED_TO_UPDATE_STUDENT : String := "Failed to update student"
def HEADER_CONTENT : String := "application/json"
def HEADER_CONTENT_TYPE : String := "Content-Type"
def STUDENT_NOT_FOUND : String := "Student not found"
def FAILED_TO_DELETE_STUDENT : String := "Failed to delete student"

/-! ## net/http status codes and `http.Error` -/

def StatusOK : Nat := 200
def StatusCreated : Nat := 201
def StatusBadRequest : Nat := 400
def StatusNotFound : Nat := 404
def StatusInternalServerError : Nat := 500

/-- Content type that `http.Error` sets on the response. -/
def TEXT_PLAIN : String := "text/plain; charset=utf-8"

/-! ## handlers.go: the Student model -/

/-- The struct `Student` (handlers.go:16-20):
`ID string` tagged `json:"id,omitempty" bson:"_id,omitempty"`,
`Name string` tagged `json:"name" validate:"required"`,
`Age int` tagged `json:"age" validate:"required,min=1"`. -/
structure Student where
  ID : String
  Name : String
  Age : Int
deriving DecidableEq, Repr

/-- The zero value `var newStudent Student`. -/
def Student.zero : Student := ⟨"", "", 0⟩

/-! ## encoding/json: decoding a request body into a Student -/

/-- A JSON value in the position of an object member, as far as decoding into a string or
an int field tells values apart. -/
inductive JsonValue where
  /-- the literal `null` -/
  | null
  /-- the literals `true` and `false` -/
  | bool (b : Bool)
  /-- a number literal in integer notation, such as `25` or `-3` -/
  | int (i : Int)
  /-- a number literal with a fraction or an exponent, such as `25.0` or `1e2` -/
  | nonInt
  /-- a string literal -/
  | string (s : String)
  /-- an array -/
  | array
  /-- a nested object -/
  | object
deriving DecidableEq, Repr

/-- The request body as the JSON decoder reads it. -/
inductive Body where
  /-- no JSON value can be read: empty body or a syntax error -/
  | malformed
  /-- the top-level value is the literal `null` -/
  | null
  /-- the top-level value is an object with these members, in order -/
  | object (members : List (String × JsonValue))
  /-- the top-level value is an array, a string, a number or a boolean -/
  | other
deriving DecidableEq, Repr

/-- The fields of `Student` that carry a json tag. -/
inductive Field where
  | id
  | name
  | age
deriving DecidableEq, Repr

/-- Case folding of an object key. The decoder matches a key against the json names
`id`, `name`, `age` ignoring case; none of these names has a letter with a non-ASCII
case variant, so folding the ASCII letters is the whole of it. -/
def foldKey (key : String) : List Char := key.data.map Char.toLower

/-- The struct field an object key is decoded into, if any (unknown keys are skipped). -/
def fieldOf (key : String) : Option Field :=
  if foldKey key = ['i', 'd'] then some Field.id
  else if foldKey key = ['n', 'a', 'm', 'e'] then some Field.name
  else if foldKey key = ['a', 'g', 'e'] then some Field.age
  else none

/-- Range of Go `int` on a 64-bit platform. -/
def fitsInt (i : Int) : Bool := decide (-(2 ^ 63 : Int) ≤ i) && decide (i < (2 ^ 63 : Int))

/-- Decoding of one value into a `string` field: a string is stored, `null` leaves the
field as it is, anything else is an `UnmarshalTypeError`. -/
def decodeString (old : String) : JsonValue → Option String
  | JsonValue.string s => some s
  | JsonValue.null => some old
  | _ => none

/-- Decoding of one value into an `int` field: an integer literal in range is stored,
`null` leaves the field as it is, anything else is an `UnmarshalTypeError`. -/
def decodeInt (old : Int) : JsonValue → Option Int
  | JsonValue.int i => if fitsInt i then some i else none
  | JsonValue.null => some old
  | _ => none

/-- Decoding of one object member into the student built so far. -/
def decodeMember (s : Student) (m : String × JsonValue) : Option Student :=
  match fieldOf m.1 with
  | none => some s
  | some Field.id => (decodeString s.ID m.2).map (fun v => { s with ID := v })
  | some Field.name => (decodeString s.Name m.2).map (fun v => { s with Name := v })
  | some Field.age => (decodeInt s.Age m.2).map (fun v => { s with Age := v })

/-- Decoding of the members of an object, in order; a later member overwrites an earlier
one for the same field. `none` when some member does not fit its field. -/
def decodeMembers : Student → List (String × JsonValue) → Option Student
  | s, [] => some s
  | s, m :: ms =>
    match decodeMember s m with
    | none => none
    | some s1 => decodeMembers s1 ms

/-- Embedding of `json.NewDecoder(r.Body).Decode(&newStudent)` on a zero `Student`:
`none` when Decode returns an error, the decoded student otherwise. -/
def decodeStudent : Body → Option Student
  | Body.malformed => none
  | Body.null => some Student.zero
  | Body.object members => decodeMembers Student.zero members
  | Body.other => none

/-! ## main.go: the package-level validator -/

/-- A validator instance (`*validator.Validate` that is not nil). -/
structure Validate where
  mk ::
deriving DecidableEq, Repr

/-- The package-level variable `var validate *validator.Validate` (main.go:17). No
statement of the repository assigns to it, so it holds nil for the life of the process. -/
def validate : Option Validate := none

/-- One failed field validation: the struct field and the tag that failed. -/
structure FieldError where
  field : String
  tag : String
deriving DecidableEq, Repr

/-- The validation rules of the `validate` tags of `Student`: `required` on Name (not the
zero value), `required,min=1` on Age (tags are tried in order, the first failure is
reported). ID has no rule. -/
def Student.fieldErrors (s : Student) : List FieldError :=
  (if s.Name = "" then [⟨"Name", "required"⟩] else []) ++
  (if s.Age = 0 then [⟨"Age", "required"⟩]
   else if s.Age < 1 then [⟨"Age", "min"⟩] else [])

/-- Result of a library call that may dereference a nil receiver. -/
inductive Call (α : Type) where
  /-- nil pointer dereference: the goroutine serving the request panics -/
  | panics
  /-- the call returns -/
  | returns (a : α)
deriving DecidableEq, Repr

/-- Embedding of `validate.Struct(s)`: on a nil `*validator.Validate` the method reads
the instance pool through the nil receiver and panics; on an instance it returns the
failed field validations (an empty list is the nil error). -/
def Validate.Struct (v : Option Validate) (s : Student) : Call (List FieldError) :=
  match v with
  | none => Call.panics
  | some _ => Call.returns s.fieldErrors

/-! ## The MongoDB collection behind `*mongo.Collection` -/

/-- A `primitive.ObjectID`, named by its hexadecimal form (`Hex()`). -/
structure ObjectID where
  hex : String
deriving DecidableEq, Repr

/-- The value of the `_id` field of a stored document. The handlers store either the string
a `Student` carries or the ObjectID the driver generates; BSON keeps the two types apart,
and an equality filter matches a value of the same type only. -/
inductive BsonId where
  | objectID (o : ObjectID)
  | string (s : String)
deriving DecidableEq, Repr

/-- The BSON document a `Student` value is marshalled to, by the bson tags of the struct:
`_id` is left out when ID is the empty string (`omitempty`), `name` and `age` are always
there (no bson tag, so the key is the lower-cased field name). -/
structure StudentBson where
  _id : Option String
  name : String
  age : Int
deriving DecidableEq, Repr

/-- Marshalling of a `Student` handed to a driver call. -/
def Student.toBson (s : Student) : StudentBson :=
  ⟨if s.ID = "" then none else some s.ID, s.Name, s.Age⟩

/-- A document of the students collection, as the handlers write it. -/
structure Document where
  _id : BsonId
  name : String
  age : Int
deriving DecidableEq, Repr

/-- The contents of the collection. -/
abbrev Collection := List Document

/-- The unique index on `_id` that every MongoDB collection has. -/
def Collection.WF (coll : Collection) : Prop := (coll.map Document._id).Nodup

instance (coll : Collection) : Decidable coll.WF := by
  unfold Collection.WF
  infer_instance

/-- The errors a driver call returns. -/
inductive StoreError where
  /-- the call did not complete: network, timeout, server or command error, with its text -/
  | driver (msg : String)
  /-- duplicate key (E11000): a document with this `_id` exists -/
  | duplicateKey
  /-- the update would modify the immutable field `_id` -/
  | immutableField
  /-- the error `mongo.ErrNoDocuments`: the filter of FindOne matched nothing -/
  | noDocuments
deriving DecidableEq, Repr

/-- What the driver contributes to one store call besides the collection contents: whether
the call fails on its way (and with which text), and the value `primitive.NewObjectID()`
yields if the call needs one. A call that fails on its way leaves the collection as it
was. -/
structure Driver where
  fault : Option String
  newObjectID : ObjectID
deriving DecidableEq, Repr

/-- A call on the collection handle, with the arguments the handler passes. -/
inductive StoreCall where
  /-- the call `InsertOne(ctx, doc)` -/
  | insertOne (doc : StudentBson)
  /-- the call `FindOne(ctx, bson.M{"_id": id})` -/
  | findOne (id : String)
  /-- the call `UpdateOne(ctx, bson.M{"_id": id}, bson.D{{"$set", set}})` -/
  | updateOne (id : String) (set : StudentBson)
  /-- the call `DeleteOne(ctx, bson.M{"_id": id})` -/
  | deleteOne (id : String)
deriving DecidableEq, Repr

/-- Whether a call can change the collection. -/
def StoreCall.modifies : StoreCall → Bool
  | StoreCall.findOne _ => false
  | _ => true

/-- The first document the filter `bson.M{"_id": id}` matches, `id` being a Go string:
the document whose `_id` is that BSON string. -/
def Collection.lookup (coll : Collection) (id : String) : Option Document :=
  coll.find? (fun d => decide (d._id = BsonId.string id))

/-- Embedding of `InsertOne`: a document without `_id` gets the ObjectID the driver
generates; the insert is refused when the `_id` is taken; otherwise the document is
added and its `_id` is the `InsertedID` of the result. -/
def InsertOne (drv : Driver) (coll : Collection) (doc : StudentBson) :
    Except StoreError (BsonId × Collection) :=
  match drv.fault with
  | some msg => Except.error (StoreError.driver msg)
  | none =>
    let id : BsonId :=
      match doc._id with
      | some s => BsonId.string s
      | none => BsonId.objectID drv.newObjectID
    if coll.any (fun d => decide (d._id = id)) then Except.error StoreError.duplicateKey
    else Except.ok (id, coll ++ [⟨id, doc.name, doc.age⟩])

/-- Decoding of a found document into a `Student` (`SingleResult.Decode`): `_id` fills ID
(an ObjectID by its hexadecimal form; the string filter of FindOne never finds one),
`name` and `age` fill Name and Age. -/
def Document.decode (d : Document) : Student :=
  ⟨match d._id with
   | BsonId.string s => s
   | BsonId.objectID o => o.hex,
   d.name, d.age⟩

/-- Embedding of `FindOne(ctx, bson.M{"_id": id}).Decode(&student)`. -/
def FindOne (drv : Driver) (coll : Collection) (id : String) : Except StoreError Student :=
  match drv.fault with
  | some msg => Except.error (StoreError.driver msg)
  | none =>
    match coll.lookup id with
    | none => Except.error StoreError.noDocuments
    | some d => Except.ok d.decode

/-- The document after `$set` of the marshalled student: `name` and `age` are overwritten;
`_id` is not a field `$set` can change. -/
def Document.set (d : Document) (upd : StudentBson) : Document :=
  { d with name := upd.name, age := upd.age }

/-- Replacement of the first document whose `_id` is the string `id`. -/
def Collection.replace : Collection → String → Document → Collection
  | [], _, _ => []
  | d :: ds, id, d1 =>
    if d._id = BsonId.string id then d1 :: ds else d :: Collection.replace ds id d1

/-- Embedding of `UpdateOne` with the update `$set: upd`: with no matching document nothing
happens and the count is 0; a `$set` that names an `_id` other than the one of the matched
document is refused; otherwise the fields are written and `ModifiedCount` is 1 when the
document changed, 0 when it already had these values. -/
def UpdateOne (drv : Driver) (coll : Collection) (id : String) (upd : StudentBson) :
    Except StoreError (Nat × Collection) :=
  match drv.fault with
  | some msg => Except.error (StoreError.driver msg)
  | none =>
    match coll.lookup id with
    | none => Except.ok (0, coll)
    | some d =>
      match upd._id with
      | some s =>
        if BsonId.string s = d._id then
          Except.ok (if d.set upd = d then 0 else 1, coll.replace id (d.set upd))
        else Except.error StoreError.immutableField
      | none => Except.ok (if d.set upd = d then 0 else 1, coll.replace id (d.set upd))

/-- Removal of the first document whose `_id` is the string `id`. -/
def Collection.remove : Collection → String → Collection
  | [], _ => []
  | d :: ds, id => if d._id = BsonId.string id then ds else d :: Collection.remove ds id

/-- Embedding of `DeleteOne`: the first matching document is removed and `DeletedCount`
is 1; with no match nothing happens and the count is 0. -/
def DeleteOne (drv : Driver) (coll : Collection) (id : String) :
    Except StoreError (Nat × Collection) :=
  match drv.fault with
  | some msg => Except.error (StoreError.driver msg)
  | none =>
    match coll.lookup id with
    | none => Except.ok (0, coll)
    | some _ => Except.ok (1, coll.remove id)

/-! ## Requests and responses -/

/-- The body written to the `http.ResponseWriter`. -/
inductive RespBody where
  /-- body of `http.Error(w, msg, code)`: the message as a line of plain text -/
  | text (msg : String)
  /-- body of `http.Error` with `fmt.Sprintf("Validation error: %s", err.Error())` -/
  | validationError (errs : List FieldError)
  /-- body of `json.NewEncoder(w).Encode(result.InsertedID)` -/
  | insertedID (id : BsonId)
  /-- body of `json.NewEncoder(w).Encode(student)` -/
  | student (s : Student)
  /-- body of `json.NewEncoder(w).Encode(n)` of a count -/
  | count (n : Nat)
deriving DecidableEq, Repr

/-- The response a handler writes. -/
structure Response where
  status : Nat
  contentType : String
  body : RespBody
deriving DecidableEq, Repr

/-- Embedding of `http.Error(w, msg, code)`. -/
def httpError (msg : String) (code : Nat) : Response := ⟨code, TEXT_PLAIN, RespBody.text msg⟩

/-- What serving one request comes to: the response written (`none` when the handler
panicked before it wrote anything), the store calls made, and the collection afterwards. -/
structure Served where
  response : Option Response
  calls : List StoreCall
  coll : Collection
deriving DecidableEq, Repr

/-! ## handlers.go: the four handlers -/

/-- Embedding of `CreateStudentHandler` (handlers.go:23-53). The first argument is the
value of the package-level `validate` that the closure reads. -/
def CreateStudentHandler (validate : Option Validate) (drv : Driver) (coll : Collection)
    (body : Body) : Served :=
  match decodeStudent body with
  | none => ⟨some (httpError INVALID_REQUEST_BODY StatusBadRequest), [], coll⟩
  | some newStudent =>
    match Validate.Struct validate newStudent with
    | Call.panics => ⟨none, [], coll⟩
    | Call.returns (e :: es) =>
      ⟨some ⟨StatusBadRequest, TEXT_PLAIN, RespBody.validationError (e :: es)⟩, [], coll⟩
    | Call.returns [] =>
      match InsertOne drv coll newStudent.toBson with
      | Except.error _ =>
        ⟨some (httpError FAILED_TO_INSERT_STUDENT StatusInternalServerError),
          [StoreCall.insertOne newStudent.toBson], coll⟩
      | Except.ok (insertedID, coll1) =>
        ⟨some ⟨StatusCreated, HEADER_CONTENT, RespBody.insertedID insertedID⟩,
          [StoreCall.insertOne newStudent.toBson], coll1⟩

/-- Embedding of `ReadStudentHandler` (handlers.go:56-75); `studentID` is
`mux.Vars(r)["id"]`. No status is written on success, so it is 200. -/
def ReadStudentHandler (drv : Driver) (coll : Collection) (studentID : String) : Served :=
  match FindOne drv coll studentID with
  | Except.error _ =>
    ⟨some (httpError STUDENT_NOT_FOUND StatusNotFound), [StoreCall.findOne studentID], coll⟩
  | Except.ok student =>
    ⟨some ⟨StatusOK, HEADER_CONTENT, RespBody.student student⟩,
      [StoreCall.findOne studentID], coll⟩

/-- Embedding of `UpdateStudentHandler` (handlers.go:78-114). The first argument is the
value of the package-level `validate` that the closure reads. -/
def UpdateStudentHandler (validate : Option Validate) (drv : Driver) (coll : Collection)
    (studentID : String) (body : Body) : Served :=
  match decodeStudent body with
  | none => ⟨some (httpError INVALID_REQUEST_BODY StatusBadRequest), [], coll⟩
  | some updatedStudent =>
    match Validate.Struct validate updatedStudent with
    | Call.panics => ⟨none, [], coll⟩
    | Call.returns (e :: es) =>
      ⟨some ⟨StatusBadRequest, TEXT_PLAIN, RespBody.validationError (e :: es)⟩, [], coll⟩
    | Call.returns [] =>
      match UpdateOne drv coll studentID updatedStudent.toBson with
      | Except.error _ =>
        ⟨some (httpError FAILED_TO_UPDATE_STUDENT StatusInternalServerError),
          [StoreCall.updateOne studentID updatedStudent.toBson], coll⟩
      | Except.ok (modifiedCount, coll1) =>
        ⟨some ⟨StatusOK, HEADER_CONTENT, RespBody.count modifiedCount⟩,
          [StoreCall.updateOne studentID updatedStudent.toBson], coll1⟩

/-- Embedding of `DeleteStudentHandler` (handlers.go:117-135). -/
def DeleteStudentHandler (drv : Driver) (coll : Collection) (studentID : String) : Served :=
  match DeleteOne drv coll studentID with
  | Except.error _ =>
    ⟨some (httpError FAILED_TO_DELETE_STUDENT StatusInternalServerError),
      [StoreCall.deleteOne studentID], coll⟩
  | Except.ok (deletedCount, coll1) =>
    ⟨some ⟨StatusOK, HEADER_CONTENT, RespBody.count deletedCount⟩,
      [StoreCall.deleteOne studentID], coll1⟩

/-! ## The requests of main_test.go -/

/-- A driver call that does not fail on its way; the ObjectID is the one the driver
generates if the inserted document has no `_id`. -/
def okDriver : Driver := ⟨none, ⟨"65a1b2c3d4e5f60718293a4b"⟩⟩

/-- A driver call that fails on its way with the given error text. -/
def failingDriver (msg : String) : Driver := ⟨some msg, ⟨"65a1b2c3d4e5f60718293a4b"⟩⟩

/-- The validator as `validator.New()` would have built it. -/
def initialised : Option Validate := some Validate.mk

/-- The payload of createStudentTest (main_test.go:53). -/
def johnDoe : Body :=
  Body.object [("name", JsonValue.string "John Doe"), ("age", JsonValue.int 25)]

/-- The payload of readStudentTest (main_test.go:82). -/
def janeDoe : Body :=
  Body.object [("name", JsonValue.string "Jane Doe"), ("age", JsonValue.int 30)]

/-- The payload of updateStudentTest (main_test.go:128). -/
def jackDoe : Body :=
  Body.object [("name", JsonValue.string "Jack Doe"), ("age", JsonValue.int 35)]

/-- The update payload of updateStudentTest (main_test.go:146). -/
def updatedName : Body :=
  Body.object [("name", JsonValue.string "Updated Name"), ("age", JsonValue.int 40)]

/-- The payload of deleteStudentTest (main_test.go:175). -/
def deletedStudent : Body :=
  Body.object [("name", JsonValue.string "Deleted Student"), ("age", JsonValue.int 50)]

/-- A payload with an empty name. -/
def emptyName : Body :=
  Body.object [("name", JsonValue.string ""), ("age", JsonValue.int 25)]

/-- A payload without an age. -/
def missingAge : Body := Body.object [("name", JsonValue.string "John Doe")]

/-- A payload with an age below 1. -/
def negativeAge : Body :=
  Body.object [("name", JsonValue.string "John Doe"), ("age", JsonValue.int (-3))]

/-- The payload of readStudentTest with an `id` member added. -/
def janeDoeWithId : Body :=
  Body.object [("id", JsonValue.string "s1"), ("name", JsonValue.string "Jane Doe"),
    ("age", JsonValue.int 30)]

/-- The update payload of updateStudentTest with an `id` member added. -/
def updatedNameWithId : Body :=
  Body.object [("id", JsonValue.string "s1"), ("name", JsonValue.string "Updated Name"),
    ("age", JsonValue.int 40)]

/-! ## Lookup, replacement and removal in a collection -/

theorem lookup_id {coll : Collection} {id : String} {d : Document}
    (h : coll.lookup id = some d) : d._id = BsonId.string id := by
  have := List.find?_some h
  simpa using this

theorem lookup_eq_none {coll : Collection} {id : String} :
    coll.lookup id = none ↔ ∀ d ∈ coll, d._id ≠ BsonId.string id := by
  simp [Collection.lookup, List.find?_eq_none]

theorem replace_ids (coll : Collection) (id : String) (d1 : Document)
    (h : d1._id = BsonId.string id) :
    (coll.replace id d1).map Document._id = coll.map Document._id := by
  induction coll with
  | nil => rfl
  | cons d ds ih =>
    unfold Collection.replace
    by_cases hd : d._id = BsonId.string id
    · simp [hd, h]
    · simp [hd, ih]

theorem lookup_remove (coll : Collection) (id : String) (hwf : coll.WF) :
    (coll.remove id).lookup id = none := by
  induction coll with
  | nil => rfl
  | cons d ds ih =>
    have hnd : (d._id :: ds.map Document._id).Nodup := hwf
    rw [List.nodup_cons] at hnd
    unfold Collection.remove
    by_cases hd : d._id = BsonId.string id
    · simp only [hd, if_true]
      rw [lookup_eq_none]
      intro x hx hxid
      exact hnd.1 (by rw [hd, ← hxid]; exact List.mem_map_of_mem _ hx)
    · simp only [hd, if_false]
      have := ih hnd.2
      rw [lookup_eq_none] at this ⊢
      intro x hx
      rcases List.mem_cons.mp hx with rfl | hx
      · exact hd
      · exact this x hx

/-! ## The unique `_id` index is kept by every handler -/

theorem insertOne_WF {drv : Driver} {coll coll1 : Collection} {doc : StudentBson} {id : BsonId}
    (hwf : coll.WF) (h : InsertOne drv coll doc = Except.ok (id, coll1)) : coll1.WF := by
  unfold InsertOne at h
  cases hf : drv.fault with
  | some msg => simp [hf] at h
  | none =>
    simp only [hf] at h
    split at h
    · cases h
    · rename_i hany
      cases h
      have hwf0 : (coll.map Document._id).Nodup := hwf
      show ((coll ++ [_]).map Document._id).Nodup
      simp only [List.map_append, List.map_cons, List.map_nil]
      rw [List.nodup_append]
      refine ⟨hwf0, List.nodup_singleton _, ?_⟩
      intro a ha hb
      simp only [List.mem_singleton] at hb
      subst hb
      apply hany
      rw [List.any_eq_true]
      obtain ⟨d, hd, hda⟩ := List.mem_map.mp ha
      exact ⟨d, hd, by simpa using hda⟩

theorem updateOne_ids {drv : Driver} {coll coll1 : Collection} {id : String}
    {upd : StudentBson} {n : Nat}
    (h : UpdateOne drv coll id upd = Except.ok (n, coll1)) :
    coll1.map Document._id = coll.map Document._id := by
  unfold UpdateOne at h
  cases hf : drv.fault with
  | some msg => simp [hf] at h
  | none =>
    simp only [hf] at h
    cases hl : coll.lookup id with
    | none =>
      simp only [hl] at h
      cases h
      rfl
    | some d =>
      simp only [hl] at h
      have hid : (d.set upd)._id = BsonId.string id := (lookup_id hl : d._id = BsonId.string id)
      cases hu : upd._id with
      | none =>
        simp only [hu] at h
        cases h
        exact replace_ids coll id _ hid
      | some s =>
        simp only [hu] at h
        split at h
        · cases h
          exact replace_ids coll id _ hid
        · cases h

theorem remove_WF (coll : Collection) (id : String) (hwf : coll.WF) : (coll.remove id).WF := by
  induction coll with
  | nil => exact hwf
  | cons d ds ih =>
    have hnd : (d._id :: ds.map Document._id).Nodup := hwf
    rw [List.nodup_cons] at hnd
    unfold Collection.remove
    by_cases hd : d._id = BsonId.string id
    · simp only [hd, if_true]
      exact hnd.2
    · simp only [hd, if_false]
      show (d._id :: (Collection.remove ds id).map Document._id).Nodup
      rw [List.nodup_cons]
      refine ⟨?_, ih hnd.2⟩
      intro hmem
      apply hnd.1
      obtain ⟨x, hx, hxd⟩ := List.mem_map.mp hmem
      have hsub : ∀ (l : Collection) (y : Document), y ∈ Collection.remove l id → y ∈ l := by
        intro l
        induction l with
        | nil => intro y hy; exact hy
        | cons e es ihe =>
          intro y hy
          unfold Collection.remove at hy
          by_cases he : e._id = BsonId.string id
          · simp only [he, if_true] at hy
            exact List.mem_cons_of_mem _ hy
          · simp only [he, if_false] at hy
            rcases List.mem_cons.mp hy with rfl | hy
            · exact List.mem_cons_self _ _
            · exact List.mem_cons_of_mem _ (ihe y hy)
      exact List.mem_map.mpr ⟨x, hsub ds x hx, hxd⟩

theorem handlers_keep_unique_ids (v : Option Validate) (drv : Driver) (coll : Collection)
    (studentID : String) (body : Body) (hwf : coll.WF) :
    (CreateStudentHandler v drv coll body).coll.WF ∧
    (ReadStudentHandler drv coll studentID).coll.WF ∧
    (UpdateStudentHandler v drv coll studentID body).coll.WF ∧
    (DeleteStudentHandler drv coll studentID).coll.WF := by
  refine ⟨?_, ?_, ?_, ?_⟩
  · unfold CreateStudentHandler
    cases hdec : decodeStudent body with
    | none => exact hwf
    | some s =>
      simp only []
      cases hval : Validate.Struct v s with
      | panics => exact hwf
      | returns errs =>
        cases errs with
        | cons x xs => exact hwf
        | nil =>
          simp only []
          cases hins : InsertOne drv coll s.toBson with
          | error e => exact hwf
          | ok r => exact insertOne_WF hwf hins
  · unfold ReadStudentHandler
    cases FindOne drv coll studentID with
    | error e => exact hwf
    | ok st => exact hwf
  · unfold UpdateStudentHandler
    cases hdec : decodeStudent body with
    | none => exact hwf
    | some s =>
      simp only []
      cases hval : Validate.Struct v s with
      | panics => exact hwf
      | returns errs =>
        cases errs with
        | cons x xs => exact hwf
        | nil =>
          simp only []
          cases hupd : UpdateOne drv coll studentID s.toBson with
          | error e => exact hwf
          | ok r =>
            show (List.map Document._id r.2).Nodup
            rw [updateOne_ids hupd]
            exact hwf
  · unfold DeleteStudentHandler DeleteOne
    cases drv.fault with
    | some msg => exact hwf
    | none =>
      cases coll.lookup studentID with
      | none => exact hwf
      | some d => exact remove_WF coll studentID hwf

/-! ## What the nil validator does to Create and Update -/

theorem create_panics_as_written (drv : Driver) (coll : Collection) (body : Body) (s : Student)
    (hdec : decodeStudent body = some s) :
    CreateStudentHandler validate drv coll body = ⟨none, [], coll⟩ := by
  simp [CreateStudentHandler, hdec, validate, Validate.Struct]

theorem update_panics_as_written (drv : Driver) (coll : Collection) (studentID : String)
    (body : Body) (s : Student) (hdec : decodeStudent body = some s) :
    UpdateStudentHandler validate drv coll studentID body = ⟨none, [], coll⟩ := by
  simp [UpdateStudentHandler, hdec, validate, Validate.Struct]

theorem fieldErrors_ne_nil (s : Student) (h : s.Name = "" ∨ s.Age < 1) :
    s.fieldErrors ≠ [] := by
  unfold Student.fieldErrors
  rcases h with h | h
  · simp [h]
  · by_cases h0 : s.Age = 0
    · simp [h0]
    · simp [h0, h]

theorem fieldErrors_eq_nil (s : Student) (hn : s.Name ≠ "") (ha : 1 ≤ s.Age) :
    s.fieldErrors = [] := by
  unfold Student.fieldErrors
  have h0 : s.Age ≠ 0 := by omega
  have h1 : ¬ s.Age < 1 := by omega
  simp [hn, h0, h1]

theorem create_rejects_invalid_with_validator (v : Validate) (drv : Driver) (coll : Collection)
    (body : Body) (s : Student) (hdec : decodeStudent body = some s)
    (hbad : s.Name = "" ∨ s.Age < 1) :
    CreateStudentHandler (some v) drv coll body =
      ⟨some ⟨400, TEXT_PLAIN, RespBody.validationError s.fieldErrors⟩, [], coll⟩ := by
  have hne := fieldErrors_ne_nil s hbad
  unfold CreateStudentHandler
  simp only [hdec, Validate.Struct]
  cases hfe : s.fieldErrors with
  | nil => exact absurd hfe hne
  | cons e es => rfl

theorem update_unmatched_with_validator (v : Validate) (drv : Driver) (coll : Collection)
    (studentID : String) (body : Body) (s : Student) (hdec : decodeStudent body = some s)
    (hn : s.Name ≠ "") (ha : 1 ≤ s.Age) (hok : drv.fault = none)
    (hno : coll.lookup studentID = none) :
    UpdateStudentHandler (some v) drv coll studentID body =
      ⟨some ⟨200, HEADER_CONTENT, RespBody.count 0⟩,
        [StoreCall.updateOne studentID s.toBson], coll⟩ := by
  unfold UpdateStudentHandler
  simp only [hdec, Validate.Struct, fieldErrors_eq_nil s hn ha, UpdateOne, hok, hno]
  rfl

/-! ## Documents stored under an ObjectID, and under a client id -/

theorem lookup_append_objectID (coll : Collection) (o : ObjectID) (name : String) (age : Int)
    (id : String) :
    Collection.lookup (coll ++ [⟨BsonId.objectID o, name, age⟩]) id = coll.lookup id := by
  unfold Collection.lookup
  rw [List.find?_append]
  cases List.find? (fun d => decide (d._id = BsonId.string id)) coll with
  | some d => rfl
  | none => rfl

theorem read_ignores_objectID_document (drv : Driver) (coll : Collection) (o : ObjectID)
    (name : String) (age : Int) (studentID : String) :
    (ReadStudentHandler drv (coll ++ [⟨BsonId.objectID o, name, age⟩]) studentID).response =
      (ReadStudentHandler drv coll studentID).response := by
  unfold ReadStudentHandler FindOne
  rw [lookup_append_objectID]
  cases drv.fault with
  | some msg => rfl
  | none =>
    cases coll.lookup studentID with
    | none => rfl
    | some d => rfl

theorem create_then_read_of_client_id (v : Validate) (drv1 drv2 : Driver) (coll : Collection)
    (body : Body) (s : Student) (hdec : decodeStudent body = some s)
    (hn : s.Name ≠ "") (ha : 1 ≤ s.Age) (hid : s.ID ≠ "")
    (h1 : drv1.fault = none) (h2 : drv2.fault = none) (hfree : coll.lookup s.ID = none) :
    CreateStudentHandler (some v) drv1 coll body =
      ⟨some ⟨201, "application/json", RespBody.insertedID (BsonId.string s.ID)⟩,
        [StoreCall.insertOne s.toBson], coll ++ [⟨BsonId.string s.ID, s.Name, s.Age⟩]⟩ ∧
    ReadStudentHandler drv2 (coll ++ [⟨BsonId.string s.ID, s.Name, s.Age⟩]) s.ID =
      ⟨some ⟨200, "application/json", RespBody.student s⟩,
        [StoreCall.findOne s.ID], coll ++ [⟨BsonId.string s.ID, s.Name, s.Age⟩]⟩ := by
  have hany : coll.any (fun d => decide (d._id = BsonId.string s.ID)) = false := by
    rw [lookup_eq_none] at hfree
    rw [List.any_eq_false]
    intro d hd
    simpa using hfree d hd
  constructor
  · unfold CreateStudentHandler
    simp only [hdec, Validate.Struct, fieldErrors_eq_nil s hn ha, InsertOne, h1,
      Student.toBson, hid, if_false, hany]
    rfl
  · have hl : Collection.lookup (coll ++ [⟨BsonId.string s.ID, s.Name, s.Age⟩]) s.ID =
        some ⟨BsonId.string s.ID, s.Name, s.Age⟩ := by
      unfold Collection.lookup at hfree ⊢
      rw [List.find?_append, hfree]
      simp
    unfold ReadStudentHandler FindOne
    simp only [h2, hl]
    rfl

/-! ## The claims -/

/-- C1 (code defect). The Create and Read requests of readStudentTest on an empty collection.
As the program is written the validator is nil, so Create panics in `validate.Struct`: no
201, no identifier, nothing inserted. With an initialised validator Create responds 201 with
the ObjectID the driver generated, and Read then responds 404 "Student not found" for every
path id, the hexadecimal form of that ObjectID included, because the filter compares `_id`
with a string. -/
theorem create_then_read_of_readStudentTest :
    CreateStudentHandler validate okDriver [] janeDoe = ⟨none, [], []⟩ ∧
    CreateStudentHandler initialised okDriver [] janeDoe =
      ⟨some ⟨201, "application/json",
          RespBody.insertedID (BsonId.objectID ⟨"65a1b2c3d4e5f60718293a4b"⟩)⟩,
        [StoreCall.insertOne ⟨none, "Jane Doe", 30⟩],
        [⟨BsonId.objectID ⟨"65a1b2c3d4e5f60718293a4b"⟩, "Jane Doe", 30⟩]⟩ ∧
    ∀ studentID : String,
      ReadStudentHandler okDriver
          (CreateStudentHandler initialised okDriver [] janeDoe).coll studentID =
        ⟨some ⟨404, "text/plain; charset=utf-8", RespBody.text "Student not found"⟩,
          [StoreCall.findOne studentID],
          [⟨BsonId.objectID ⟨"65a1b2c3d4e5f60718293a4b"⟩, "Jane Doe", 30⟩]⟩ := by
  refine ⟨by decide, by decide, ?_⟩
  intro studentID
  rfl

/-- C2 (code defect). Create requests whose body parses to a student with an empty name, no
age, or an age below 1. As the program is written the validator is nil, so each of them
panics in `validate.Struct` and no response is written (no 400); no insert call is made and
the collection is unchanged. With an initialised validator each one is answered 400 with
the failed rule, again without an insert call. -/
theorem create_invalid_payload_of_nil_validator :
    CreateStudentHandler validate okDriver [] emptyName = ⟨none, [], []⟩ ∧
    CreateStudentHandler validate okDriver [] missingAge = ⟨none, [], []⟩ ∧
    CreateStudentHandler validate okDriver [] negativeAge = ⟨none, [], []⟩ ∧
    CreateStudentHandler initialised okDriver [] emptyName =
      ⟨some ⟨400, "text/plain; charset=utf-8",
        RespBody.validationError [⟨"Name", "required"⟩]⟩, [], []⟩ ∧
    CreateStudentHandler initialised okDriver [] missingAge =
      ⟨some ⟨400, "text/plain; charset=utf-8",
        RespBody.validationError [⟨"Age", "required"⟩]⟩, [], []⟩ ∧
    CreateStudentHandler initialised okDriver [] negativeAge =
      ⟨some ⟨400, "text/plain; charset=utf-8",
        RespBody.validationError [⟨"Age", "min"⟩]⟩, [], []⟩ := by
  refine ⟨by decide, by decide, by decide, by decide, by decide, by decide⟩

/-- C3 (code defect). The Create and Update requests of updateStudentTest on an empty
collection. As the program is written both panic in `validate.Struct`. With an initialised
validator Create stores the student under a generated ObjectID, and Update then responds 200
with modified-count 0 for every path id and leaves the stored name and age as they were,
because the filter compares `_id` with a string. -/
theorem create_then_update_of_updateStudentTest :
    CreateStudentHandler validate okDriver [] jackDoe = ⟨none, [], []⟩ ∧
    CreateStudentHandler initialised okDriver [] jackDoe =
      ⟨some ⟨201, "application/json",
          RespBody.insertedID (BsonId.objectID ⟨"65a1b2c3d4e5f60718293a4b"⟩)⟩,
        [StoreCall.insertOne ⟨none, "Jack Doe", 35⟩],
        [⟨BsonId.objectID ⟨"65a1b2c3d4e5f60718293a4b"⟩, "Jack Doe", 35⟩]⟩ ∧
    (∀ studentID : String,
      UpdateStudentHandler validate okDriver
          (CreateStudentHandler initialised okDriver [] jackDoe).coll studentID updatedName =
        ⟨none, [], [⟨BsonId.objectID ⟨"65a1b2c3d4e5f60718293a4b"⟩, "Jack Doe", 35⟩]⟩) ∧
    ∀ studentID : String,
      UpdateStudentHandler initialised okDriver
          (CreateStudentHandler initialised okDriver [] jackDoe).coll studentID updatedName =
        ⟨some ⟨200, "application/json", RespBody.count 0⟩,
          [StoreCall.updateOne studentID ⟨none, "Updated Name", 40⟩],
          [⟨BsonId.objectID ⟨"65a1b2c3d4e5f60718293a4b"⟩, "Jack Doe", 35⟩]⟩ := by
  refine ⟨by decide, by decide, ?_, ?_⟩
  · intro studentID
    rfl
  · intro studentID
    rfl

/-- C4 (code defect). The Create and Delete requests of deleteStudentTest on an empty
collection. As the program is written Create panics in `validate.Struct`, so there is no
student to delete. With an initialised validator Create stores the student under a generated
ObjectID, and Delete then responds 200 with deleted-count 0 for every path id and the
document stays in the collection, because the filter compares `_id` with a string. -/
theorem create_then_delete_of_deleteStudentTest :
    CreateStudentHandler validate okDriver [] deletedStudent = ⟨none, [], []⟩ ∧
    CreateStudentHandler initialised okDriver [] deletedStudent =
      ⟨some ⟨201, "application/json",
          RespBody.insertedID (BsonId.objectID ⟨"65a1b2c3d4e5f60718293a4b"⟩)⟩,
        [StoreCall.insertOne ⟨none, "Deleted Student", 50⟩],
        [⟨BsonId.objectID ⟨"65a1b2c3d4e5f60718293a4b"⟩, "Deleted Student", 50⟩]⟩ ∧
    ∀ studentID : String,
      DeleteStudentHandler okDriver
          (CreateStudentHandler initialised okDriver [] deletedStudent).coll studentID =
        ⟨some ⟨200, "application/json", RespBody.count 0⟩,
          [StoreCall.deleteOne studentID],
          [⟨BsonId.objectID ⟨"65a1b2c3d4e5f60718293a4b"⟩, "Deleted Student", 50⟩]⟩ := by
  refine ⟨by decide, by decide, ?_⟩
  intro studentID
  rfl

/-- C9 (code defect). An Update request with the valid payload of updateStudentTest and a
path id that matches no stored document, the store call not failing. As the program is
written the validator is nil, so Update panics in `validate.Struct` and writes no response
(no 200, no count). With an initialised validator it responds 200 with the JSON integer 0
and the collection is unchanged. -/
theorem update_unmatched_of_nil_validator :
    UpdateStudentHandler validate okDriver [] "65a1b2c3d4e5f60718293a4b" updatedName =
      ⟨none, [], []⟩ ∧
    UpdateStudentHandler validate okDriver [⟨BsonId.string "s1", "Jack Doe", 35⟩] "s2"
        updatedName = ⟨none, [], [⟨BsonId.string "s1", "Jack Doe", 35⟩]⟩ ∧
    UpdateStudentHandler initialised okDriver [] "65a1b2c3d4e5f60718293a4b" updatedName =
      ⟨some ⟨200, "application/json", RespBody.count 0⟩,
        [StoreCall.updateOne "65a1b2c3d4e5f60718293a4b" ⟨none, "Updated Name", 40⟩], []⟩ ∧
    UpdateStudentHandler initialised okDriver [⟨BsonId.string "s1", "Jack Doe", 35⟩] "s2"
        updatedName =
      ⟨some ⟨200, "application/json", RespBody.count 0⟩,
        [StoreCall.updateOne "s2" ⟨none, "Updated Name", 40⟩],
        [⟨BsonId.string "s1", "Jack Doe", 35⟩]⟩ := by
  refine ⟨by decide, by decide, by decide, by decide⟩

/-! ## Create and Update: what is handed to the store -/

theorem decodeMember_ID_of_other_key (s s1 : Student) (m : String × JsonValue)
    (hkey : fieldOf m.1 ≠ some Field.id) (h : decodeMember s m = some s1) : s1.ID = s.ID := by
  unfold decodeMember at h
  cases hf : fieldOf m.1 with
  | none =>
    simp only [hf] at h
    cases h
    rfl
  | some f =>
    cases f with
    | id => exact absurd hf hkey
    | name =>
      simp only [hf] at h
      cases hv : decodeString s.Name m.2 with
      | none => simp [hv] at h
      | some v =>
        rw [hv] at h
        cases h
        rfl
    | age =>
      simp only [hf] at h
      cases hv : decodeInt s.Age m.2 with
      | none => simp [hv] at h
      | some v =>
        rw [hv] at h
        cases h
        rfl

theorem decodeMembers_ID_of_no_id_key (members : List (String × JsonValue)) :
    ∀ (s s1 : Student), (∀ m ∈ members, fieldOf m.1 ≠ some Field.id) →
      decodeMembers s members = some s1 → s1.ID = s.ID := by
  induction members with
  | nil =>
    intro s s1 _ h
    simp only [decodeMembers] at h
    cases h
    rfl
  | cons m ms ih =>
    intro s s1 hkeys h
    simp only [decodeMembers] at h
    cases hm : decodeMember s m with
    | none => simp [hm] at h
    | some s2 =>
      simp only [hm] at h
      rw [ih s2 s1 (fun x hx => hkeys x (List.mem_cons_of_mem _ hx)) h]
      exact decodeMember_ID_of_other_key s s2 m (hkeys m (List.mem_cons_self _ _)) hm

/-- What Create hands to the store, for every state of the validator: when the body parses
and `validate.Struct` returns no error, the one store call is InsertOne of the decoded
student as marshalled, `_id` being the `id` of the body when that is a non-empty string and
left out otherwise (in particular for an object without an `id` member); when the store
accepts the insert the student is created under that `_id`, or under the ObjectID the
driver generated when none was given. With the nil validator of the program the premise
on `validate.Struct` never holds. -/
theorem create_insert_document (v : Option Validate) (drv : Driver) (coll : Collection)
    (body : Body) (s : Student)
    (hdec : decodeStudent body = some s)
    (hval : Validate.Struct v s = Call.returns []) :
    (CreateStudentHandler v drv coll body).calls =
      [StoreCall.insertOne ⟨if s.ID = "" then none else some s.ID, s.Name, s.Age⟩] ∧
    (∀ members, body = Body.object members →
      (∀ m ∈ members, fieldOf m.1 ≠ some Field.id) → s.ID = "") ∧
    ∀ (id : BsonId) (coll1 : Collection),
      InsertOne drv coll s.toBson = Except.ok (id, coll1) →
        id = (if s.ID = "" then BsonId.objectID drv.newObjectID else BsonId.string s.ID) ∧
        CreateStudentHandler v drv coll body =
          ⟨some ⟨201, "application/json", RespBody.insertedID id⟩,
            [StoreCall.insertOne s.toBson], coll ++ [⟨id, s.Name, s.Age⟩]⟩ := by
  refine ⟨?_, ?_, ?_⟩
  · unfold CreateStudentHandler
    simp only [hdec, hval]
    cases InsertOne drv coll s.toBson with
    | error e => rfl
    | ok r => rfl
  · intro members hb hkeys
    subst hb
    exact decodeMembers_ID_of_no_id_key members Student.zero s hkeys hdec
  · intro id coll1 hins
    have hins0 := hins
    unfold InsertOne at hins
    cases hf : drv.fault with
    | some msg => simp [hf] at hins
    | none =>
      simp only [hf] at hins
      split at hins
      · cases hins
      · simp only [Except.ok.injEq, Prod.mk.injEq] at hins
        obtain ⟨hid, hcoll⟩ := hins
        refine ⟨?_, ?_⟩
        · rw [← hid]
          unfold Student.toBson
          by_cases hID : s.ID = "" <;> simp [hID]
        · unfold CreateStudentHandler
          simp only [hdec, hval, hins0]
          rw [← hcoll, hid]
          rfl

/-- What Update hands to the store, for every state of the validator: when the body parses
and `validate.Struct` returns no error, the one store call is UpdateOne with `$set` of the
decoded student as marshalled, `_id` included exactly when the body carries a non-empty
`id`; the identifiers of the stored documents are the same afterwards, in the same order.
With the nil validator of the program the premise on `validate.Struct` never holds. -/
theorem update_set_payload (v : Option Validate) (drv : Driver) (coll : Collection)
    (studentID : String) (body : Body) (s : Student)
    (hdec : decodeStudent body = some s)
    (hval : Validate.Struct v s = Call.returns []) :
    (UpdateStudentHandler v drv coll studentID body).calls =
      [StoreCall.updateOne studentID
        ⟨if s.ID = "" then none else some s.ID, s.Name, s.Age⟩] ∧
    (UpdateStudentHandler v drv coll studentID body).coll.map Document._id =
      coll.map Document._id := by
  unfold UpdateStudentHandler
  simp only [hdec, hval]
  cases hu : UpdateOne drv coll studentID s.toBson with
  | error e => exact ⟨rfl, rfl⟩
  | ok r =>
    obtain ⟨n, coll1⟩ := r
    exact ⟨rfl, updateOne_ids hu⟩

/-! ## Create and Update on a payload that passes the validation rules -/

/-- C5 (code defect). Create requests whose body parses to a student that passes the
validation rules: the payload of createStudentTest, which has no `id` member, and a payload
with the `id` member s1. As the program is written the validator is nil, so on every driver
and collection each of them panics in `validate.Struct` before InsertOne: no document, with
or without identifier, is handed to the store's insert, nothing is stored and no student
gets an identifier. With an initialised validator the payload of createStudentTest is
handed to InsertOne without identifier and the student is created under the ObjectID the
driver generated, and the payload with `id` s1 is handed to InsertOne with `_id` s1. -/
theorem create_valid_payload_of_nil_validator :
    decodeStudent johnDoe = some ⟨"", "John Doe", 25⟩ ∧
    Student.fieldErrors ⟨"", "John Doe", 25⟩ = [] ∧
    decodeStudent janeDoeWithId = some ⟨"s1", "Jane Doe", 30⟩ ∧
    Student.fieldErrors ⟨"s1", "Jane Doe", 30⟩ = [] ∧
    (∀ (drv : Driver) (coll : Collection),
      CreateStudentHandler validate drv coll johnDoe = ⟨none, [], coll⟩ ∧
      CreateStudentHandler validate drv coll janeDoeWithId = ⟨none, [], coll⟩) ∧
    CreateStudentHandler initialised okDriver [] johnDoe =
      ⟨some ⟨201, "application/json",
          RespBody.insertedID (BsonId.objectID ⟨"65a1b2c3d4e5f60718293a4b"⟩)⟩,
        [StoreCall.insertOne ⟨none, "John Doe", 25⟩],
        [⟨BsonId.objectID ⟨"65a1b2c3d4e5f60718293a4b"⟩, "John Doe", 25⟩]⟩ ∧
    CreateStudentHandler initialised okDriver [] janeDoeWithId =
      ⟨some ⟨201, "application/json", RespBody.insertedID (BsonId.string "s1")⟩,
        [StoreCall.insertOne ⟨some "s1", "Jane Doe", 30⟩],
        [⟨BsonId.string "s1", "Jane Doe", 30⟩]⟩ := by
  refine ⟨by decide, by decide, by decide, by decide, ?_, by decide, by decide⟩
  intro drv coll
  exact ⟨rfl, rfl⟩

/-- C6 (code defect). Update requests whose body parses to a student that passes the
validation rules: the update payload of updateStudentTest, which has no `id` member, and
the same payload with the `id` member s1. As the program is written the validator is nil,
so on every driver, collection and path id each of them panics in `validate.Struct` before
UpdateOne: no `$set` payload is sent to the store and no name or age is replaced (the
collection, identifiers included, is as before). With an initialised validator, addressed
to the stored document s1, the first sends a `$set` of name and age only and the document
has the new name and age under the same identifier; the second sends `_id` s1 in the
payload as well. -/
theorem update_valid_payload_of_nil_validator :
    decodeStudent updatedName = some ⟨"", "Updated Name", 40⟩ ∧
    Student.fieldErrors ⟨"", "Updated Name", 40⟩ = [] ∧
    decodeStudent updatedNameWithId = some ⟨"s1", "Updated Name", 40⟩ ∧
    Student.fieldErrors ⟨"s1", "Updated Name", 40⟩ = [] ∧
    (∀ (drv : Driver) (coll : Collection) (studentID : String),
      UpdateStudentHandler validate drv coll studentID updatedName = ⟨none, [], coll⟩ ∧
      UpdateStudentHandler validate drv coll studentID updatedNameWithId = ⟨none, [], coll⟩) ∧
    UpdateStudentHandler initialised okDriver [⟨BsonId.string "s1", "Jack Doe", 35⟩] "s1"
        updatedName =
      ⟨some ⟨200, "application/json", RespBody.count 1⟩,
        [StoreCall.updateOne "s1" ⟨none, "Updated Name", 40⟩],
        [⟨BsonId.string "s1", "Updated Name", 40⟩]⟩ ∧
    UpdateStudentHandler initialised okDriver [⟨BsonId.string "s1", "Jack Doe", 35⟩] "s1"
        updatedNameWithId =
      ⟨some ⟨200, "application/json", RespBody.count 1⟩,
        [StoreCall.updateOne "s1" ⟨some "s1", "Updated Name", 40⟩],
        [⟨BsonId.string "s1", "Updated Name", 40⟩]⟩ := by
  refine ⟨by decide, by decide, by decide, by decide, ?_, by decide, by decide⟩
  intro drv coll studentID
  exact ⟨rfl, rfl⟩

/-! ## Store failures, Read and Delete -/

/-- C7. For Create, Update and Delete, on every validator state, collection and request:
whenever the store call the handler makes returns an error (a failure on the way, a
duplicate key, a refused `$set`), the response is 500 with the fixed message of the
operation; and two runs of the same request that differ only in the error text of the
store failure are identical in response, calls and collection, so nothing of the store
error reaches the caller. -/
theorem store_failure_gives_fixed_500 (v : Option Validate) (drv : Driver)
    (coll : Collection) (studentID : String) (body : Body) :
    (∀ doc e, StoreCall.insertOne doc ∈ (CreateStudentHandler v drv coll body).calls →
      InsertOne drv coll doc = Except.error e →
      (CreateStudentHandler v drv coll body).response =
        some ⟨500, "text/plain; charset=utf-8", RespBody.text "Failed to insert student"⟩) ∧
    (∀ id upd e,
      StoreCall.updateOne id upd ∈ (UpdateStudentHandler v drv coll studentID body).calls →
      UpdateOne drv coll id upd = Except.error e →
      (UpdateStudentHandler v drv coll studentID body).response =
        some ⟨500, "text/plain; charset=utf-8", RespBody.text "Failed to update student"⟩) ∧
    (∀ e, DeleteOne drv coll studentID = Except.error e →
      (DeleteStudentHandler drv coll studentID).response =
        some ⟨500, "text/plain; charset=utf-8", RespBody.text "Failed to delete student"⟩) ∧
    (∀ msg1 msg2 : String,
      CreateStudentHandler v ⟨some msg1, drv.newObjectID⟩ coll body =
        CreateStudentHandler v ⟨some msg2, drv.newObjectID⟩ coll body ∧
      UpdateStudentHandler v ⟨some msg1, drv.newObjectID⟩ coll studentID body =
        UpdateStudentHandler v ⟨some msg2, drv.newObjectID⟩ coll studentID body ∧
      DeleteStudentHandler ⟨some msg1, drv.newObjectID⟩ coll studentID =
        DeleteStudentHandler ⟨some msg2, drv.newObjectID⟩ coll studentID) := by
  refine ⟨?_, ?_, ?_, ?_⟩
  · intro doc e hcall herr
    unfold CreateStudentHandler at hcall ⊢
    cases hdec : decodeStudent body with
    | none => simp [hdec] at hcall
    | some s =>
      simp only [hdec] at hcall ⊢
      cases hval : Validate.Struct v s with
      | panics => simp [hval] at hcall
      | returns errs =>
        cases errs with
        | cons x xs => simp [hval] at hcall
        | nil =>
          simp only [hval] at hcall ⊢
          cases hins : InsertOne drv coll s.toBson with
          | error e1 => rfl
          | ok r =>
            simp only [hins, List.mem_singleton, StoreCall.insertOne.injEq] at hcall
            rw [hcall, hins] at herr
            cases herr
  · intro id upd e hcall herr
    unfold UpdateStudentHandler at hcall ⊢
    cases hdec : decodeStudent body with
    | none => simp [hdec] at hcall
    | some s =>
      simp only [hdec] at hcall ⊢
      cases hval : Validate.Struct v s with
      | panics => simp [hval] at hcall
      | returns errs =>
        cases errs with
        | cons x xs => simp [hval] at hcall
        | nil =>
          simp only [hval] at hcall ⊢
          cases hupd : UpdateOne drv coll studentID s.toBson with
          | error e1 => rfl
          | ok r =>
            simp only [hupd, List.mem_singleton, StoreCall.updateOne.injEq] at hcall
            rw [hcall.1, hcall.2, hupd] at herr
            cases herr
  · intro e herr
    unfold DeleteStudentHandler
    rw [herr]
    rfl
  · intro msg1 msg2
    refine ⟨?_, ?_, ?_⟩
    · unfold CreateStudentHandler
      cases decodeStudent body with
      | none => rfl
      | some s =>
        cases hval : Validate.Struct v s with
        | panics => rfl
        | returns errs =>
          cases errs with
          | cons x xs => rfl
          | nil => rfl
    · unfold UpdateStudentHandler
      cases decodeStudent body with
      | none => rfl
      | some s =>
        cases hval : Validate.Struct v s with
        | panics => rfl
        | returns errs =>
          cases errs with
          | cons x xs => rfl
          | nil => rfl
    · rfl

/-- C7 (witness). The statement at the requests of main_test.go with a driver that fails
with a connection error: each of Create, Update and Delete makes its store call, the call
fails, and the response is the fixed 500. -/
theorem store_failure_gives_fixed_500_witness :
    (StoreCall.insertOne ⟨none, "Jane Doe", 30⟩ ∈
        (CreateStudentHandler initialised (failingDriver "connection refused") [] janeDoe).calls ∧
      InsertOne (failingDriver "connection refused") [] ⟨none, "Jane Doe", 30⟩ =
        Except.error (StoreError.driver "connection refused") ∧
      (CreateStudentHandler initialised (failingDriver "connection refused") [] janeDoe).response =
        some ⟨500, "text/plain; charset=utf-8", RespBody.text "Failed to insert student"⟩) ∧
    (StoreCall.updateOne "s1" ⟨none, "Updated Name", 40⟩ ∈
        (UpdateStudentHandler initialised (failingDriver "connection refused") [] "s1"
          updatedName).calls ∧
      (UpdateStudentHandler initialised (failingDriver "connection refused") [] "s1"
          updatedName).response =
        some ⟨500, "text/plain; charset=utf-8", RespBody.text "Failed to update student"⟩) ∧
    (DeleteStudentHandler (failingDriver "connection refused") [] "s1").response =
      some ⟨500, "text/plain; charset=utf-8", RespBody.text "Failed to delete student"⟩ := by
  have h := store_failure_gives_fixed_500 initialised (failingDriver "connection refused") []
    "s1" janeDoe
  have hu := store_failure_gives_fixed_500 initialised (failingDriver "connection refused") []
    "s1" updatedName
  refine ⟨⟨by decide, rfl, ?_⟩, ⟨by decide, ?_⟩, ?_⟩
  · exact h.1 ⟨none, "Jane Doe", 30⟩ (StoreError.driver "connection refused") (by decide) rfl
  · exact hu.2.1 "s1" ⟨none, "Updated Name", 40⟩ (StoreError.driver "connection refused")
      (by decide) rfl
  · exact h.2.2.1 (StoreError.driver "connection refused") rfl

/-- C8. Read, on every driver, collection and path id: when the path id matches no stored
document, and whenever the lookup returns not-found or any other error, the response is 404
with the fixed text "Student not found" (so never 200); in every case the only store call
Read makes is the lookup, which modifies nothing, and the collection is unchanged. -/
theorem read_not_found_is_404 (drv : Driver) (coll : Collection) (studentID : String) :
    ((coll.lookup studentID = none ∨ ∃ e, FindOne drv coll studentID = Except.error e) →
      (ReadStudentHandler drv coll studentID).response =
          some ⟨404, "text/plain; charset=utf-8", RespBody.text "Student not found"⟩ ∧
        (ReadStudentHandler drv coll studentID).response.map Response.status ≠ some 200) ∧
    (ReadStudentHandler drv coll studentID).calls = [StoreCall.findOne studentID] ∧
    (∀ c ∈ (ReadStudentHandler drv coll studentID).calls, c.modifies = false) ∧
    (ReadStudentHandler drv coll studentID).coll = coll := by
  have hcalls : (ReadStudentHandler drv coll studentID).calls = [StoreCall.findOne studentID] ∧
      (ReadStudentHandler drv coll studentID).coll = coll := by
    unfold ReadStudentHandler
    cases FindOne drv coll studentID with
    | error e => exact ⟨rfl, rfl⟩
    | ok st => exact ⟨rfl, rfl⟩
  refine ⟨?_, hcalls.1, ?_, hcalls.2⟩
  · intro h
    have herr : ∃ e, FindOne drv coll studentID = Except.error e := by
      rcases h with h | h
      · unfold FindOne
        cases drv.fault with
        | some msg => exact ⟨_, rfl⟩
        | none => simp only [h]; exact ⟨_, rfl⟩
      · exact h
    obtain ⟨e, he⟩ := herr
    unfold ReadStudentHandler
    rw [he]
    exact ⟨rfl, by simp [httpError, StatusNotFound]⟩
  · intro c hc
    rw [hcalls.1, List.mem_singleton] at hc
    rw [hc]
    rfl

/-- C8 (witness). The statement at a path id that matches no stored document and at a
failing lookup of a stored one: both are answered 404 "Student not found". -/
theorem read_not_found_is_404_witness :
    Collection.lookup [⟨BsonId.string "s1", "Jane Doe", 30⟩] "s2" = none ∧
    (ReadStudentHandler okDriver [⟨BsonId.string "s1", "Jane Doe", 30⟩] "s2").response =
      some ⟨404, "text/plain; charset=utf-8", RespBody.text "Student not found"⟩ ∧
    FindOne (failingDriver "connection refused") [⟨BsonId.string "s1", "Jane Doe", 30⟩] "s1" =
      Except.error (StoreError.driver "connection refused") ∧
    (ReadStudentHandler (failingDriver "connection refused")
        [⟨BsonId.string "s1", "Jane Doe", 30⟩] "s1").response =
      some ⟨404, "text/plain; charset=utf-8", RespBody.text "Student not found"⟩ :=
  ⟨by decide,
    ((read_not_found_is_404 okDriver [⟨BsonId.string "s1", "Jane Doe", 30⟩] "s2").1
      (Or.inl (by decide))).1,
    rfl,
    ((read_not_found_is_404 (failingDriver "connection refused")
      [⟨BsonId.string "s1", "Jane Doe", 30⟩] "s1").1
      (Or.inr ⟨StoreError.driver "connection refused", rfl⟩)).1⟩

/-- C10 (counterexample). Delete with a path id that matches no stored document, the store
call failing: the response is 500 "Failed to delete student", not 200 with count 0. And a
first Delete whose store call fails followed by a second one that goes through: the second
responds with count 1, and the collection after the two Deletes is not the collection after
the first. -/
theorem delete_unmatched_with_failing_store :
    Collection.lookup [] "s1" = none ∧
    DeleteStudentHandler (failingDriver "connection refused") [] "s1" =
      ⟨some ⟨500, "text/plain; charset=utf-8", RespBody.text "Failed to delete student"⟩,
        [StoreCall.deleteOne "s1"], []⟩ ∧
    DeleteStudentHandler (failingDriver "connection refused")
        [⟨BsonId.string "s1", "Jane Doe", 30⟩] "s1" =
      ⟨some ⟨500, "text/plain; charset=utf-8", RespBody.text "Failed to delete student"⟩,
        [StoreCall.deleteOne "s1"], [⟨BsonId.string "s1", "Jane Doe", 30⟩]⟩ ∧
    DeleteStudentHandler okDriver
        (DeleteStudentHandler (failingDriver "connection refused")
          [⟨BsonId.string "s1", "Jane Doe", 30⟩] "s1").coll "s1" =
      ⟨some ⟨200, "application/json", RespBody.count 1⟩, [StoreCall.deleteOne "s1"], []⟩ := by
  refine ⟨by decide, by decide, by decide, by decide⟩

/-- C10 (amended). When the store call does not fail: for every path id matching no stored
document, Delete responds 200 with deleted-count 0 and leaves the collection unchanged;
hence for every collection (with its unique `_id` index) and id, a second Delete of the same
id right after a first one responds 200 with count 0, and the collection after the two
Deletes is the collection after the first. -/
theorem delete_idempotent (drv1 drv2 : Driver) (coll : Collection) (studentID : String)
    (h1 : drv1.fault = none) (h2 : drv2.fault = none) (hwf : coll.WF) :
    (coll.lookup studentID = none →
      DeleteStudentHandler drv1 coll studentID =
        ⟨some ⟨200, "application/json", RespBody.count 0⟩,
          [StoreCall.deleteOne studentID], coll⟩) ∧
    DeleteStudentHandler drv2 (DeleteStudentHandler drv1 coll studentID).coll studentID =
      ⟨some ⟨200, "application/json", RespBody.count 0⟩,
        [StoreCall.deleteOne studentID], (DeleteStudentHandler drv1 coll studentID).coll⟩ := by
  have hno : ∀ (drv : Driver) (c : Collection), drv.fault = none → c.lookup studentID = none →
      DeleteStudentHandler drv c studentID =
        ⟨some ⟨200, "application/json", RespBody.count 0⟩,
          [StoreCall.deleteOne studentID], c⟩ := by
    intro drv c hf hl
    unfold DeleteStudentHandler DeleteOne
    simp only [hf, hl]
    rfl
  refine ⟨hno drv1 coll h1, ?_⟩
  apply hno drv2 _ h2
  cases hl : coll.lookup studentID with
  | none => rw [hno drv1 coll h1 hl]; exact hl
  | some d =>
    have : (DeleteStudentHandler drv1 coll studentID).coll = coll.remove studentID := by
      unfold DeleteStudentHandler DeleteOne
      simp only [h1, hl]
    rw [this]
    exact lookup_remove coll studentID hwf

/-- C10 (witness). The amended statement at a collection of two students and the id of one
of them: the first Delete removes it, the second responds 200 with count 0 and changes
nothing. -/
theorem delete_idempotent_witness :
    okDriver.fault = none ∧
    Collection.WF [⟨BsonId.string "s1", "Jane Doe", 30⟩, ⟨BsonId.string "s2", "Jack Doe", 35⟩] ∧
    DeleteStudentHandler okDriver
        [⟨BsonId.string "s1", "Jane Doe", 30⟩, ⟨BsonId.string "s2", "Jack Doe", 35⟩] "s1" =
      ⟨some ⟨200, "application/json", RespBody.count 1⟩, [StoreCall.deleteOne "s1"],
        [⟨BsonId.string "s2", "Jack Doe", 35⟩]⟩ ∧
    DeleteStudentHandler okDriver
        (DeleteStudentHandler okDriver
          [⟨BsonId.string "s1", "Jane Doe", 30⟩, ⟨BsonId.string "s2", "Jack Doe", 35⟩] "s1").coll
        "s1" =
      ⟨some ⟨200, "application/json", RespBody.count 0⟩, [StoreCall.deleteOne "s1"],
        (DeleteStudentHandler okDriver
          [⟨BsonId.string "s1", "Jane Doe", 30⟩, ⟨BsonId.string "s2", "Jack Doe", 35⟩]
          "s1").coll⟩ :=
  ⟨rfl, by decide, by decide,
    (delete_idempotent okDriver okDriver
      [⟨BsonId.string "s1", "Jane Doe", 30⟩, ⟨BsonId.string "s2", "Jack Doe", 35⟩] "s1"
      rfl rfl (by decide)).2⟩

end CrudInUberStyle
